import Mathlib

/-!
# Verification of the procedural garden scene

Shallow embedding of the repository's components:

* `Tree`, `Flower`, `FruitPlant`, `SmallPlant` — the primitive generators
  (`src/app/components/Tree.tsx`, `src/unnamed/part_000` (Flower),
  `src/unnamed/part_001` (FruitPlant), `src/app/components/SmallPlant.tsx`).
* `Garden` — the placement loops and UI of the scene assembler
  (`src/app/components/XRScene.tsx`).

Random draws of `Math.random()` are modelled as explicit arguments:
rationals (`ℚ`) where the source's arithmetic is free of `Math.PI`, and
reals (`ℝ`) where an angle in radians is produced.  Each draw is assumed
to lie in `[0, 1)` exactly when a theorem needs that bound.
`useMemo` is modelled as an explicit cache slot threaded through a render
function: `none` at mount, filled afterwards, with the dependency array
compared on re-render.
-/

/-- React's `useMemo`: the hook cell `slot` holds the previously stored
dependencies and value; if the dependencies are unchanged the cached value is
returned, otherwise the factory is re-run and the cell updated. -/
def useMemo {δ α : Type} [DecidableEq δ] (slot : Option (δ × α)) (deps : δ)
    (factory : Unit → α) : α × (δ × α) :=
  match slot with
  | some (d, v) => if d = deps then (v, (d, v)) else (factory (), (deps, factory ()))
  | none => (factory (), (deps, factory ()))

namespace Tree

/-- From `src/app/components/Tree.tsx`: `0.8 + Math.random() * 0.6`. -/
def sizeVariation (r : ℚ) : ℚ := 0.8 + r * 0.6

/-- The kinds of geometry primitive used by the generators. -/
inductive Prim : Type
  | cylinder
  | cone
  | sphere
deriving DecidableEq, Repr

/-- The meshes of a tree: a trunk cylinder and a foliage cone; the draw only
scales them, it never changes the list. -/
def meshes (_r : ℚ) : List Prim := [Prim.cylinder, Prim.cone]

/-- The tree's single memoized hook, rendered from its cache slot:
`useMemo(() => 0.8 + Math.random() * 0.6, [])`. -/
def render (slot : Option (Unit × ℚ)) (r : ℚ) : ℚ × (Unit × ℚ) :=
  useMemo slot () (fun _ => sizeVariation r)

end Tree

namespace Flower

/-- From `src/unnamed/part_000` (Flower): the fixed petal palette. -/
def petalColors : List String :=
  ["#ff6b9d", "#ffa500", "#ffeb3b", "#4caf50", "#2196f3", "#9c27b0", "#f44336"]

/-- Index `Math.floor(Math.random() * petalColors.length)`. -/
def petalColorIdx (r : ℚ) : ℕ := (Int.floor (r * (petalColors.length : ℚ))).toNat

/-- Lookup `petalColors[...]`: JavaScript indexing yields `undefined` out of bounds,
modelled by `Option`. -/
def petalColor (r : ℚ) : Option String := petalColors.get? (petalColorIdx r)

/-- The meshes of a flower: a stem cylinder, six petal spheres, one center
sphere; independent of the draw. -/
def meshes (_r : ℚ) : List Tree.Prim :=
  Tree.Prim.cylinder :: (List.replicate 6 Tree.Prim.sphere ++ [Tree.Prim.sphere])

/-- The flower's single memoized hook (the petal color). -/
def render (slot : Option (Unit × Option String)) (r : ℚ) :
    Option String × (Unit × Option String) :=
  useMemo slot () (fun _ => petalColor r)

end Flower

namespace FruitPlant

/-- From `src/unnamed/part_001` (FruitPlant): the fixed fruit palette. -/
def fruitColors : List String := ["#ff4444", "#ff8800", "#ffaa00", "#ff6b35"]

/-- Index `Math.floor(Math.random() * fruitColors.length)`. -/
def fruitColorIdx (r : ℚ) : ℕ := (Int.floor (r * (fruitColors.length : ℚ))).toNat

/-- Lookup `fruitColors[...]`. -/
def fruitColor (r : ℚ) : Option String := fruitColors.get? (fruitColorIdx r)

/-- Height factor `0.7 + Math.random() * 0.6`. -/
def heightVariation (r : ℚ) : ℚ := 0.7 + r * 0.6

/-- Count `4 + Math.floor(Math.random() * 3)` — the number of fruit spheres. -/
def fruitCount (r : ℚ) : ℕ := 4 + (Int.floor (r * 3)).toNat

/-- The meshes of a fruit plant: trunk cylinder, leaf cone, and `fruitCount`
fruit spheres. -/
def meshes (rCount : ℚ) : List Tree.Prim :=
  [Tree.Prim.cylinder, Tree.Prim.cone] ++ List.replicate (fruitCount rCount) Tree.Prim.sphere

/-- Position of one fruit sphere (`src/unnamed/part_001` fruit loop):
`angle = (i / 6) * Math.PI * 2 + Math.random() * 0.5`,
`radius = 0.15 + Math.random() * 0.1`,
`y = heightVariation + 0.2 + Math.random() * 0.4`. -/
noncomputable def fruitAt (heightVar : ℚ) (i : ℕ) (rA rR rY : ℝ) : ℝ × ℝ × ℝ :=
  let angle : ℝ := ((i : ℝ) / 6) * Real.pi * 2 + rA * 0.5
  let radius : ℝ := 0.15 + rR * 0.1
  (Real.cos angle * radius, (heightVar : ℝ) + 0.2 + rY * 0.4, Real.sin angle * radius)

/-- The fruit array built inside the third `useMemo`. -/
noncomputable def fruitsOf (heightVar : ℚ) (rCount : ℚ) (d : ℕ → ℝ × ℝ × ℝ) :
    List (ℝ × ℝ × ℝ) :=
  (List.range (fruitCount rCount)).map fun i => fruitAt heightVar i (d i).1 (d i).2.1 (d i).2.2

/-- The hook cells of a mounted fruit plant: color and height with empty
dependency arrays, fruits with dependencies `[heightVariation, fruitColor]`. -/
structure Hooks : Type where
  colorSlot : Option (Unit × Option String)
  heightSlot : Option (Unit × ℚ)
  fruitsSlot : Option ((ℚ × Option String) × List (ℝ × ℝ × ℝ))

/-- The style parameters a render of the fruit plant produces. -/
structure Params : Type where
  color : Option String
  height : ℚ
  fruits : List (ℝ × ℝ × ℝ)

/-- One render of the fruit plant: three `useMemo` calls in source order. -/
noncomputable def render (h : Hooks) (rColor rHeight rCount : ℚ)
    (d : ℕ → ℝ × ℝ × ℝ) : Params × Hooks :=
  let c := useMemo h.colorSlot () (fun _ => fruitColor rColor)
  let hv := useMemo h.heightSlot () (fun _ => heightVariation rHeight)
  let f := useMemo h.fruitsSlot (hv.1, c.1) (fun _ => fruitsOf hv.1 rCount d)
  (⟨c.1, hv.1, f.1⟩, ⟨some c.2, some hv.2, some f.2⟩)

/-- The empty hook state of a freshly mounting instance. -/
def Hooks.empty : Hooks := ⟨none, none, none⟩

end FruitPlant

namespace SmallPlant

/-- From `src/app/components/SmallPlant.tsx`: the fixed palette of green shades. -/
def greenShades : List String := ["#4caf50", "#2d5016", "#66bb6a", "#388e3c"]

/-- Index `Math.floor(Math.random() * greenShades.length)`. -/
def plantColorIdx (r : ℚ) : ℕ := (Int.floor (r * (greenShades.length : ℚ))).toNat

/-- Lookup `greenShades[...]`. -/
def plantColor (r : ℚ) : Option String := greenShades.get? (plantColorIdx r)

/-- Count `5 + Math.floor(Math.random() * 4)` — the number of cluster spheres. -/
def clusterSize (r : ℚ) : ℕ := 5 + (Int.floor (r * 4)).toNat

/-- The meshes of a small plant: `clusterSize` spheres. -/
def meshes (rCount : ℚ) : List Tree.Prim :=
  List.replicate (clusterSize rCount) Tree.Prim.sphere

/-- One sphere of the cluster:
`x = (Math.random() - 0.5) * 0.2`, `z = (Math.random() - 0.5) * 0.2`,
`y = Math.random() * 0.15`, sphere radius `0.05 + Math.random() * 0.03`. -/
def clusterSphere (rx rz ry rs : ℚ) : (ℚ × ℚ × ℚ) × ℚ :=
  (((rx - 0.5) * 0.2, ry * 0.15, (rz - 0.5) * 0.2), 0.05 + rs * 0.03)

/-- The cluster built inside the second `useMemo`. -/
def clusterOf (rCount : ℚ) (d : ℕ → ℚ × ℚ × ℚ × ℚ) : List ((ℚ × ℚ × ℚ) × ℚ) :=
  (List.range (clusterSize rCount)).map fun i =>
    clusterSphere (d i).1 (d i).2.1 (d i).2.2.1 (d i).2.2.2

/-- The hook cells of a mounted small plant: color with empty dependency
array, cluster with dependency `[plantColor]`. -/
structure Hooks : Type where
  colorSlot : Option (Unit × Option String)
  clusterSlot : Option (Option String × List ((ℚ × ℚ × ℚ) × ℚ))

/-- The style parameters a render of the small plant produces. -/
structure Params : Type where
  color : Option String
  cluster : List ((ℚ × ℚ × ℚ) × ℚ)
deriving DecidableEq

/-- One render of the small plant: two `useMemo` calls in source order. -/
def render (h : Hooks) (rColor rCount : ℚ) (d : ℕ → ℚ × ℚ × ℚ × ℚ) :
    Params × Hooks :=
  let c := useMemo h.colorSlot () (fun _ => plantColor rColor)
  let cl := useMemo h.clusterSlot c.1 (fun _ => clusterOf rCount d)
  (⟨c.1, cl.1⟩, ⟨some c.2, some cl.2⟩)

/-- The empty hook state of a freshly mounting instance. -/
def Hooks.empty : Hooks := ⟨none, none⟩

end SmallPlant

namespace Garden

/-- A placement descriptor produced by one iteration of a placement loop in
`src/app/components/XRScene.tsx`: the intermediate `angle` and `distance`,
the resulting position `(x, y, z)`, and the rotation around Y. -/
structure Placement : Type where
  angle : ℝ
  distance : ℝ
  x : ℝ
  y : ℝ
  z : ℝ
  rotY : ℝ

/-- Flower ring (first ring, 20 instances):
`angle = (i / 20) * Math.PI * 2`, `distance = 2.5 + Math.random() * 1.5`,
position `[x, -1, z]`, rotation `Math.random() * Math.PI * 2`. -/
noncomputable def flowerRingAt (i : ℕ) (rDist rRot : ℝ) : Placement :=
  let angle : ℝ := ((i : ℝ) / 20) * Real.pi * 2
  let distance : ℝ := 2.5 + rDist * 1.5
  ⟨angle, distance, Real.cos angle * distance, -1, Real.sin angle * distance,
    rRot * Real.pi * 2⟩

/-- Fruit-plant ring (second ring, 15 instances):
`angle = (i / 15) * Math.PI * 2`, `distance = 4 + Math.random() * 2`. -/
noncomputable def fruitRingAt (i : ℕ) (rDist rRot : ℝ) : Placement :=
  let angle : ℝ := ((i : ℝ) / 15) * Real.pi * 2
  let distance : ℝ := 4 + rDist * 2
  ⟨angle, distance, Real.cos angle * distance, -1, Real.sin angle * distance,
    rRot * Real.pi * 2⟩

/-- Tree ring (third ring, 12 instances):
`angle = (i / 12) * Math.PI * 2`, `distance = 6.5 + Math.random() * 2`. -/
noncomputable def treeRingAt (i : ℕ) (rDist rRot : ℝ) : Placement :=
  let angle : ℝ := ((i : ℝ) / 12) * Real.pi * 2
  let distance : ℝ := 6.5 + rDist * 2
  ⟨angle, distance, Real.cos angle * distance, -1, Real.sin angle * distance,
    rRot * Real.pi * 2⟩

/-- Small-plant ground cover (40 instances):
`angle = Math.random() * Math.PI * 2`, `distance = 1.5 + Math.random() * 7`;
the `SmallPlant` element receives no rotation prop, so the rotation is 0. -/
noncomputable def smallPlantAt (rAngle rDist : ℝ) : Placement :=
  let angle : ℝ := rAngle * Real.pi * 2
  let distance : ℝ := 1.5 + rDist * 7
  ⟨angle, distance, Real.cos angle * distance, -1, Real.sin angle * distance, 0⟩

/-- Additional scattered flowers (25 instances):
`angle = Math.random() * Math.PI * 2`, `distance = 1.5 + Math.random() * 6`. -/
noncomputable def flowerExtraAt (rAngle rDist rRot : ℝ) : Placement :=
  let angle : ℝ := rAngle * Real.pi * 2
  let distance : ℝ := 1.5 + rDist * 6
  ⟨angle, distance, Real.cos angle * distance, -1, Real.sin angle * distance,
    rRot * Real.pi * 2⟩

/-- Additional scattered fruit plants (18 instances):
`angle = Math.random() * Math.PI * 2`, `distance = 2 + Math.random() * 5`. -/
noncomputable def fruitExtraAt (rAngle rDist rRot : ℝ) : Placement :=
  let angle : ℝ := rAngle * Real.pi * 2
  let distance : ℝ := 2 + rDist * 5
  ⟨angle, distance, Real.cos angle * distance, -1, Real.sin angle * distance,
    rRot * Real.pi * 2⟩

/-- Loop `[...Array(20)].map((_, i) => ...)` for the flower ring, with the
per-iteration draws supplied by `d`. -/
noncomputable def flowerRingList (d : ℕ → ℝ × ℝ) : List Placement :=
  (List.range 20).map fun i => flowerRingAt i (d i).1 (d i).2

/-- The fruit-plant ring loop (15 iterations). -/
noncomputable def fruitRingList (d : ℕ → ℝ × ℝ) : List Placement :=
  (List.range 15).map fun i => fruitRingAt i (d i).1 (d i).2

/-- The tree ring loop (12 iterations). -/
noncomputable def treeRingList (d : ℕ → ℝ × ℝ) : List Placement :=
  (List.range 12).map fun i => treeRingAt i (d i).1 (d i).2

/-- The small-plant loop (40 iterations). -/
noncomputable def smallPlantList (d : ℕ → ℝ × ℝ) : List Placement :=
  (List.range 40).map fun i => smallPlantAt (d i).1 (d i).2

/-- The additional-flowers loop (25 iterations). -/
noncomputable def flowerExtraList (d : ℕ → ℝ × ℝ × ℝ) : List Placement :=
  (List.range 25).map fun i => flowerExtraAt (d i).1 (d i).2.1 (d i).2.2

/-- The additional-fruit-plants loop (18 iterations). -/
noncomputable def fruitExtraList (d : ℕ → ℝ × ℝ × ℝ) : List Placement :=
  (List.range 18).map fun i => fruitExtraAt (d i).1 (d i).2.1 (d i).2.2

/-- The two sampling policies of the placement scheme. -/
inductive Policy : Type
  | ring
  | disc
deriving DecidableEq, BEq, Repr

/-- The generator kinds placed by the scene assembler. -/
inductive PlantKind : Type
  | flower
  | fruitPlant
  | tree
  | smallPlant
deriving DecidableEq, BEq, Repr

/-- One placed instance group of the scene assembler: its generator kind,
sampling policy, instance count, and radius band `[rMin, rMin + rWidth]`. -/
structure InstanceGroup : Type where
  kind : PlantKind
  policy : Policy
  count : ℕ
  rMin : ℚ
  rWidth : ℚ
deriving DecidableEq, BEq, Repr

/-- The six placement loops of `XRScene`, in source order: the flower ring,
the fruit-plant ring, the tree ring, the scattered small plants, the
additional flowers, and the additional fruit plants. -/
def sceneGroups : List InstanceGroup :=
  [⟨PlantKind.flower, Policy.ring, 20, 2.5, 1.5⟩,
   ⟨PlantKind.fruitPlant, Policy.ring, 15, 4, 2⟩,
   ⟨PlantKind.tree, Policy.ring, 12, 6.5, 2⟩,
   ⟨PlantKind.smallPlant, Policy.disc, 40, 1.5, 7⟩,
   ⟨PlantKind.flower, Policy.disc, 25, 1.5, 6⟩,
   ⟨PlantKind.fruitPlant, Policy.disc, 18, 2, 5⟩]

/-- Grid element `position` prop `[0, -1, 0]`: the reference grid sits one
unit below the origin. -/
def gridPosition : ℚ × ℚ × ℚ := (0, -1, 0)

/-- The overlay controls of `XRScene`: the VR and AR entry buttons are always
present; the exit button carries the forwarded `onExitXR` callback. -/
inductive UIControl (A : Type) : Type
  | vrButton
  | arButton
  | exitButton (onClick : A)

/-- The overlay rendered by `XRScene` for a given optional `onExitXR` prop:
`VRButton`, `ARButton`, and — only when `onExitXR` is provided — the
`Exit XR Mode` button whose `onClick` is exactly `onExitXR`. -/
def overlay {A : Type} (onExitXR : Option A) : List (UIControl A) :=
  [UIControl.vrButton, UIControl.arButton] ++
    (match onExitXR with
     | some cb => [UIControl.exitButton cb]
     | none => [])

/-- The click handler carried by a control, when it is the exit button. -/
def exitHandler {A : Type} : UIControl A → Option A
  | UIControl.exitButton cb => some cb
  | _ => none

/-- Clicking the exit button invokes its `onClick` callback. -/
def click {A : Type} (onClick : A) : A := onClick

end Garden

/-- For a draw `r` in `[0, 1)`, `Math.floor(r * k)` lands in `[0, k)`. -/
lemma draw_floor_mem (r : ℚ) (k : ℕ) (h0 : 0 ≤ r) (h1 : r < 1) (hk : 0 < k) :
    (Int.floor (r * (k : ℚ))).toNat < k := by
  have hk' : (0 : ℚ) < (k : ℚ) := by exact_mod_cast hk
  have hlt : Int.floor (r * (k : ℚ)) < (k : ℤ) := by
    rw [Int.floor_lt]
    push_cast
    nlinarith [mul_pos (sub_pos.mpr h1) hk', mul_nonneg h0 hk'.le]
  omega

/-- C1: each ring tier (flowers N = 20 in [2.5, 4], fruit plants N = 15 in
[4, 6], trees N = 12 in [6.5, 8.5]) produces exactly N descriptors; the i-th
descriptor's angle is 2·π·i/N, consecutive indices are spaced 2·π/N apart, and
for every distance draw in [0, 1) the radius stays inside the tier's band. -/
theorem ringTiers_placement_correct :
    (∀ d, (Garden.flowerRingList d).length = 20) ∧
    (∀ d, (Garden.fruitRingList d).length = 15) ∧
    (∀ d, (Garden.treeRingList d).length = 12) ∧
    (∀ (i : ℕ) (rD rR : ℝ), i < 20 → 0 ≤ rD → rD < 1 →
      (Garden.flowerRingAt i rD rR).angle = 2 * Real.pi * i / 20 ∧
      (Garden.flowerRingAt (i + 1) rD rR).angle - (Garden.flowerRingAt i rD rR).angle
        = 2 * Real.pi / 20 ∧
      2.5 ≤ (Garden.flowerRingAt i rD rR).distance ∧
      (Garden.flowerRingAt i rD rR).distance ≤ 4) ∧
    (∀ (i : ℕ) (rD rR : ℝ), i < 15 → 0 ≤ rD → rD < 1 →
      (Garden.fruitRingAt i rD rR).angle = 2 * Real.pi * i / 15 ∧
      (Garden.fruitRingAt (i + 1) rD rR).angle - (Garden.fruitRingAt i rD rR).angle
        = 2 * Real.pi / 15 ∧
      4 ≤ (Garden.fruitRingAt i rD rR).distance ∧
      (Garden.fruitRingAt i rD rR).distance ≤ 6) ∧
    (∀ (i : ℕ) (rD rR : ℝ), i < 12 → 0 ≤ rD → rD < 1 →
      (Garden.treeRingAt i rD rR).angle = 2 * Real.pi * i / 12 ∧
      (Garden.treeRingAt (i + 1) rD rR).angle - (Garden.treeRingAt i rD rR).angle
        = 2 * Real.pi / 12 ∧
      6.5 ≤ (Garden.treeRingAt i rD rR).distance ∧
      (Garden.treeRingAt i rD rR).distance ≤ 8.5) := by
  refine ⟨fun d => by simp [Garden.flowerRingList],
          fun d => by simp [Garden.fruitRingList],
          fun d => by simp [Garden.treeRingList], ?_, ?_, ?_⟩ <;>
    · intro i rD rR hi h0 h1
      refine ⟨?_, ?_, ?_, ?_⟩ <;>
        simp only [Garden.flowerRingAt, Garden.fruitRingAt, Garden.treeRingAt]
      · push_cast
        ring
      · push_cast
        ring
      · nlinarith
      · nlinarith

/-- Witness for C1 at index 0 with both draws 0. -/
theorem ringTiers_placement_correct_witness :
    (Garden.flowerRingList fun _ => (0, 0)).length = 20 ∧
    (Garden.flowerRingAt 0 0 0).angle = 2 * Real.pi * 0 / 20 ∧
    2.5 ≤ (Garden.flowerRingAt 0 0 0).distance ∧
    (Garden.flowerRingAt 0 0 0).distance ≤ 4 ∧
    4 ≤ (Garden.fruitRingAt 0 0 0).distance ∧
    6.5 ≤ (Garden.treeRingAt 0 0 0).distance := by
  obtain ⟨h20, -, -, hf, hfr, ht⟩ := ringTiers_placement_correct
  obtain ⟨ha, -, hlo, hhi⟩ := hf 0 0 0 (by norm_num) le_rfl (by norm_num)
  have ha0 : (Garden.flowerRingAt 0 0 0).angle = 2 * Real.pi * (0 : ℕ) / 20 := ha
  refine ⟨h20 _, by simpa using ha0, hlo, hhi,
    (hfr 0 0 0 (by norm_num) le_rfl (by norm_num)).2.2.1,
    (ht 0 0 0 (by norm_num) le_rfl (by norm_num)).2.2.1⟩

/-- C2: each disc-scattered group (small plants N = 40 in [1.5, 8.5], extra
flowers N = 25 in [1.5, 7.5], extra fruit plants N = 18 in [2, 7]) produces
exactly N descriptors, and for draws in [0, 1) the angle lies in [0, 2·π) and
the radius inside the group's band. -/
theorem discGroups_placement_correct :
    (∀ d, (Garden.smallPlantList d).length = 40) ∧
    (∀ d, (Garden.flowerExtraList d).length = 25) ∧
    (∀ d, (Garden.fruitExtraList d).length = 18) ∧
    (∀ rA rD : ℝ, 0 ≤ rA → rA < 1 → 0 ≤ rD → rD < 1 →
      0 ≤ (Garden.smallPlantAt rA rD).angle ∧
      (Garden.smallPlantAt rA rD).angle < 2 * Real.pi ∧
      1.5 ≤ (Garden.smallPlantAt rA rD).distance ∧
      (Garden.smallPlantAt rA rD).distance ≤ 8.5) ∧
    (∀ rA rD rR : ℝ, 0 ≤ rA → rA < 1 → 0 ≤ rD → rD < 1 →
      0 ≤ (Garden.flowerExtraAt rA rD rR).angle ∧
      (Garden.flowerExtraAt rA rD rR).angle < 2 * Real.pi ∧
      1.5 ≤ (Garden.flowerExtraAt rA rD rR).distance ∧
      (Garden.flowerExtraAt rA rD rR).distance ≤ 7.5) ∧
    (∀ rA rD rR : ℝ, 0 ≤ rA → rA < 1 → 0 ≤ rD → rD < 1 →
      0 ≤ (Garden.fruitExtraAt rA rD rR).angle ∧
      (Garden.fruitExtraAt rA rD rR).angle < 2 * Real.pi ∧
      2 ≤ (Garden.fruitExtraAt rA rD rR).distance ∧
      (Garden.fruitExtraAt rA rD rR).distance ≤ 7) := by
  refine ⟨fun d => by simp [Garden.smallPlantList],
          fun d => by simp [Garden.flowerExtraList],
          fun d => by simp [Garden.fruitExtraList],
          fun rA rD hA0 hA1 hD0 hD1 => ?_, fun rA rD rR hA0 hA1 hD0 hD1 => ?_,
          fun rA rD rR hA0 hA1 hD0 hD1 => ?_⟩ <;>
    · refine ⟨?_, ?_, ?_, ?_⟩ <;>
        simp only [Garden.smallPlantAt, Garden.flowerExtraAt, Garden.fruitExtraAt] <;>
        nlinarith [Real.pi_pos]

/-- Witness for C2 with all draws 0. -/
theorem discGroups_placement_correct_witness :
    (Garden.smallPlantList fun _ => (0, 0)).length = 40 ∧
    0 ≤ (Garden.smallPlantAt 0 0).angle ∧
    (Garden.smallPlantAt 0 0).angle < 2 * Real.pi ∧
    1.5 ≤ (Garden.smallPlantAt 0 0).distance ∧
    1.5 ≤ (Garden.flowerExtraAt 0 0 0).distance ∧
    2 ≤ (Garden.fruitExtraAt 0 0 0).distance := by
  obtain ⟨h40, -, -, hs, hfl, hfr⟩ := discGroups_placement_correct
  obtain ⟨h1, h2, h3, -⟩ := hs 0 0 le_rfl (by norm_num) le_rfl (by norm_num)
  exact ⟨h40 _, h1, h2, h3,
    (hfl 0 0 0 le_rfl (by norm_num) le_rfl (by norm_num)).2.2.1,
    (hfr 0 0 0 le_rfl (by norm_num) le_rfl (by norm_num)).2.2.1⟩

/-- C3: for every draw in [0, 1), the tree's size factor lies in [0.8, 1.4]
and the fruit plant's height factor in [0.7, 1.3]. -/
theorem styleFactors_in_range (r : ℚ) (h0 : 0 ≤ r) (h1 : r < 1) :
    0.8 ≤ Tree.sizeVariation r ∧ Tree.sizeVariation r ≤ 1.4 ∧
    0.7 ≤ FruitPlant.heightVariation r ∧ FruitPlant.heightVariation r ≤ 1.3 := by
  unfold Tree.sizeVariation FruitPlant.heightVariation
  exact ⟨by nlinarith, by nlinarith, by nlinarith, by nlinarith⟩

/-- Witness for C3 at r = 1/2. -/
theorem styleFactors_in_range_witness :
    (0 : ℚ) ≤ 1/2 ∧ (1/2 : ℚ) < 1 ∧ 0.8 ≤ Tree.sizeVariation (1/2) ∧
    0.7 ≤ FruitPlant.heightVariation (1/2) :=
  ⟨by norm_num, by norm_num, (styleFactors_in_range (1/2) (by norm_num) (by norm_num)).1,
    (styleFactors_in_range (1/2) (by norm_num) (by norm_num)).2.2.1⟩

/-- C4 counterexample: the draws 0 and 9/10 both lie in [0, 1) yet give a
fruit plant 4 versus 6 fruit spheres and a small plant 5 versus 8 cluster
spheres, so the primitive topology does depend on the random draws. -/
theorem topology_varies_with_draw :
    (0 : ℚ) ≤ 0 ∧ (0 : ℚ) < 1 ∧ (0 : ℚ) ≤ 9/10 ∧ (9/10 : ℚ) < 1 ∧
    FruitPlant.meshes 0 ≠ FruitPlant.meshes (9/10) ∧
    SmallPlant.meshes 0 ≠ SmallPlant.meshes (9/10) := by
  have hf0 : FruitPlant.fruitCount 0 = 4 := by
    unfold FruitPlant.fruitCount
    norm_num
  have hf9 : FruitPlant.fruitCount (9/10) = 6 := by
    unfold FruitPlant.fruitCount
    norm_num
    decide
  have hs0 : SmallPlant.clusterSize 0 = 5 := by
    unfold SmallPlant.clusterSize
    norm_num
  have hs9 : SmallPlant.clusterSize (9/10) = 8 := by
    unfold SmallPlant.clusterSize
    norm_num
    decide
  refine ⟨le_refl 0, by norm_num, by norm_num, by norm_num, fun h => ?_, fun h => ?_⟩
  · have hlen := congrArg List.length h
    simp [FruitPlant.meshes, hf0, hf9] at hlen
  · have hlen := congrArg List.length h
    simp [SmallPlant.meshes, hs0, hs9] at hlen

/-- C4 amended: Tree and Flower have draw-independent topology; FruitPlant
always keeps exactly one trunk cylinder and one leaf cone but its fruit-sphere
count varies with the draw inside [4, 6]; SmallPlant's sphere count varies
inside [5, 8]. -/
theorem topology_fixed_except_counts :
    (∀ r s : ℚ, Tree.meshes r = Tree.meshes s) ∧
    (∀ r s : ℚ, Flower.meshes r = Flower.meshes s) ∧
    (∀ r : ℚ, 0 ≤ r → r < 1 →
      (FruitPlant.meshes r).take 2 = [Tree.Prim.cylinder, Tree.Prim.cone] ∧
      (FruitPlant.meshes r).length = 2 + FruitPlant.fruitCount r ∧
      4 ≤ FruitPlant.fruitCount r ∧ FruitPlant.fruitCount r ≤ 6) ∧
    (∀ r : ℚ, 0 ≤ r → r < 1 →
      (SmallPlant.meshes r).length = SmallPlant.clusterSize r ∧
      5 ≤ SmallPlant.clusterSize r ∧ SmallPlant.clusterSize r ≤ 8) := by
  refine ⟨fun r s => rfl, fun r s => rfl, fun r h0 h1 => ?_, fun r h0 h1 => ?_⟩
  · have h3 := draw_floor_mem r 3 h0 h1 (by norm_num)
    push_cast at h3
    refine ⟨rfl, by simp [FruitPlant.meshes]; omega, Nat.le_add_right 4 _, ?_⟩
    unfold FruitPlant.fruitCount
    omega
  · have h4 := draw_floor_mem r 4 h0 h1 (by norm_num)
    push_cast at h4
    refine ⟨by simp [SmallPlant.meshes], Nat.le_add_right 5 _, ?_⟩
    unfold SmallPlant.clusterSize
    omega

/-- Witness for the amended C4 at r = 0. -/
theorem topology_fixed_except_counts_witness :
    Tree.meshes 0 = Tree.meshes (1/2) ∧
    (FruitPlant.meshes 0).take 2 = [Tree.Prim.cylinder, Tree.Prim.cone] ∧
    4 ≤ FruitPlant.fruitCount 0 ∧
    5 ≤ SmallPlant.clusterSize 0 := by
  obtain ⟨ht, -, hf, hs⟩ := topology_fixed_except_counts
  exact ⟨ht 0 (1/2), (hf 0 le_rfl (by norm_num)).1, (hf 0 le_rfl (by norm_num)).2.2.1,
    (hs 0 le_rfl (by norm_num)).2.1⟩

/-- C5: re-rendering a mounted instance of any generator — with arbitrary
fresh draws standing in for the new `Math.random()` calls the factory would
make — returns exactly the parameters memoized at mount. -/
theorem memoized_params_stable :
    (∀ r s : ℚ, (Tree.render (some (Tree.render none r).2) s).1 = (Tree.render none r).1) ∧
    (∀ r s : ℚ,
      (Flower.render (some (Flower.render none r).2) s).1 = (Flower.render none r).1) ∧
    (∀ (rc rh rn rc' rh' rn' : ℚ) (d d' : ℕ → ℝ × ℝ × ℝ),
      (FruitPlant.render (FruitPlant.render FruitPlant.Hooks.empty rc rh rn d).2
          rc' rh' rn' d').1
        = (FruitPlant.render FruitPlant.Hooks.empty rc rh rn d).1) ∧
    (∀ (rc rn rc' rn' : ℚ) (d d' : ℕ → ℚ × ℚ × ℚ × ℚ),
      (SmallPlant.render (SmallPlant.render SmallPlant.Hooks.empty rc rn d).2 rc' rn' d').1
        = (SmallPlant.render SmallPlant.Hooks.empty rc rn d).1) := by
  refine ⟨fun r s => ?_, fun r s => ?_, fun rc rh rn rc' rh' rn' d d' => ?_,
    fun rc rn rc' rn' d d' => ?_⟩ <;>
    simp [Tree.render, Flower.render, FruitPlant.render, SmallPlant.render,
      FruitPlant.Hooks.empty, SmallPlant.Hooks.empty, useMemo]

/-- C6 counterexample: the scene assembler contains exactly one ring tier of
flowers, not two. -/
theorem sceneGroups_one_flower_ring_only :
    ¬ (Garden.sceneGroups.filter fun g =>
        g.policy == Garden.Policy.ring && g.kind == Garden.PlantKind.flower).length = 2 := by
  decide

/-- C6 amended: the assembler composes exactly six groups — one ring tier of
flowers, one of fruit plants, one of trees, and three disc-scattered groups
(small-plant ground cover, extra flowers, extra fruit plants); ring sampling
is used for exactly the three structured tiers and disc sampling for exactly
the fill and ground-cover groups. -/
theorem sceneGroups_composition :
    Garden.sceneGroups.length = 6 ∧
    (Garden.sceneGroups.filter fun g => g.policy == Garden.Policy.ring)
      = [⟨Garden.PlantKind.flower, Garden.Policy.ring, 20, 2.5, 1.5⟩,
         ⟨Garden.PlantKind.fruitPlant, Garden.Policy.ring, 15, 4, 2⟩,
         ⟨Garden.PlantKind.tree, Garden.Policy.ring, 12, 6.5, 2⟩] ∧
    (Garden.sceneGroups.filter fun g => g.policy == Garden.Policy.disc)
      = [⟨Garden.PlantKind.smallPlant, Garden.Policy.disc, 40, 1.5, 7⟩,
         ⟨Garden.PlantKind.flower, Garden.Policy.disc, 25, 1.5, 6⟩,
         ⟨Garden.PlantKind.fruitPlant, Garden.Policy.disc, 18, 2, 5⟩] :=
  ⟨rfl, rfl, rfl⟩

/-- C7: the exit affordance is rendered exactly when `onExitXR` is provided,
a click on it invokes exactly the forwarded callback, and when the prop is
absent the overlay carries no exit control at all. -/
theorem exit_affordance_correct :
    (∀ (A : Type) (o : Option A),
      (Garden.overlay o).filterMap Garden.exitHandler = o.toList) ∧
    (∀ (A : Type) (o : Option A),
      (∃ cb, Garden.UIControl.exitButton cb ∈ Garden.overlay o) ↔ o.isSome) ∧
    (∀ (A : Type) (cb : A), Garden.click cb = cb) := by
  refine ⟨fun A o => ?_, fun A o => ?_, fun A cb => rfl⟩ <;>
    cases o <;> simp [Garden.overlay, Garden.exitHandler]

/-- C8: for every draw in [0, 1), the palette index `Math.floor(r * length)`
is in bounds for the flower (7 colors), fruit (4 colors) and small-plant
(4 shades) palettes, so the selected color is never `undefined`. -/
theorem paletteIdx_safe (r : ℚ) (h0 : 0 ≤ r) (h1 : r < 1) :
    Flower.petalColorIdx r < 7 ∧ (Flower.petalColor r).isSome ∧
    FruitPlant.fruitColorIdx r < 4 ∧ (FruitPlant.fruitColor r).isSome ∧
    SmallPlant.plantColorIdx r < 4 ∧ (SmallPlant.plantColor r).isSome := by
  have h7 : Flower.petalColorIdx r < 7 := by
    have := draw_floor_mem r 7 h0 h1 (by norm_num)
    simpa [Flower.petalColorIdx, Flower.petalColors] using this
  have h4a : FruitPlant.fruitColorIdx r < 4 := by
    have := draw_floor_mem r 4 h0 h1 (by norm_num)
    simpa [FruitPlant.fruitColorIdx, FruitPlant.fruitColors] using this
  have h4b : SmallPlant.plantColorIdx r < 4 := by
    have := draw_floor_mem r 4 h0 h1 (by norm_num)
    simpa [SmallPlant.plantColorIdx, SmallPlant.greenShades] using this
  have hp : ∀ k, k < 7 → (Flower.petalColors.get? k).isSome := by decide
  have hq : ∀ k, k < 4 → (FruitPlant.fruitColors.get? k).isSome := by decide
  have hg : ∀ k, k < 4 → (SmallPlant.greenShades.get? k).isSome := by decide
  exact ⟨h7, hp _ h7, h4a, hq _ h4a, h4b, hg _ h4b⟩

/-- Witness for C8 at r = 1/2. -/
theorem paletteIdx_safe_witness :
    (0 : ℚ) ≤ 1/2 ∧ (1/2 : ℚ) < 1 ∧ Flower.petalColorIdx (1/2) < 7 ∧
    (Flower.petalColor (1/2)).isSome ∧ (FruitPlant.fruitColor (1/2)).isSome ∧
    (SmallPlant.plantColor (1/2)).isSome := by
  obtain ⟨a, b, -, c, -, d⟩ := paletteIdx_safe (1/2) (by norm_num) (by norm_num)
  exact ⟨by norm_num, by norm_num, a, b, c, d⟩

/-- C9: every placed instance of all six groups sits at ground height
y = -1, the height of the reference grid. -/
theorem placements_at_ground_height :
    (∀ (i : ℕ) (a b : ℝ), (Garden.flowerRingAt i a b).y = -1) ∧
    (∀ (i : ℕ) (a b : ℝ), (Garden.fruitRingAt i a b).y = -1) ∧
    (∀ (i : ℕ) (a b : ℝ), (Garden.treeRingAt i a b).y = -1) ∧
    (∀ a b : ℝ, (Garden.smallPlantAt a b).y = -1) ∧
    (∀ a b c : ℝ, (Garden.flowerExtraAt a b c).y = -1) ∧
    (∀ a b c : ℝ, (Garden.fruitExtraAt a b c).y = -1) ∧
    Garden.gridPosition.2.1 = -1 :=
  ⟨fun _ _ _ => rfl, fun _ _ _ => rfl, fun _ _ _ => rfl, fun _ _ => rfl,
    fun _ _ _ => rfl, fun _ _ _ => rfl, rfl⟩

/-- C10: for every draw in [0, 1), a fruit plant bears between 4 and 6 fruit
spheres and a small plant's cluster contains between 5 and 8 spheres. -/
theorem subpart_counts_in_range (r : ℚ) (h0 : 0 ≤ r) (h1 : r < 1) :
    (4 ≤ FruitPlant.fruitCount r ∧ FruitPlant.fruitCount r ≤ 6) ∧
    (5 ≤ SmallPlant.clusterSize r ∧ SmallPlant.clusterSize r ≤ 8) ∧
    (∀ (hv : ℚ) (d : ℕ → ℝ × ℝ × ℝ),
      (FruitPlant.fruitsOf hv r d).length = FruitPlant.fruitCount r) ∧
    (∀ d : ℕ → ℚ × ℚ × ℚ × ℚ,
      (SmallPlant.clusterOf r d).length = SmallPlant.clusterSize r) := by
  have h3 := draw_floor_mem r 3 h0 h1 (by norm_num)
  have h4 := draw_floor_mem r 4 h0 h1 (by norm_num)
  push_cast at h3 h4
  refine ⟨⟨Nat.le_add_right 4 _, ?_⟩, ⟨Nat.le_add_right 5 _, ?_⟩,
      fun hv d => ?_, fun d => ?_⟩
  · unfold FruitPlant.fruitCount
    omega
  · unfold SmallPlant.clusterSize
    omega
  · simp [FruitPlant.fruitsOf]
  · simp [SmallPlant.clusterOf]

/-- Witness for C10 at r = 1/2. -/
theorem subpart_counts_in_range_witness :
    (0 : ℚ) ≤ 1/2 ∧ (1/2 : ℚ) < 1 ∧ 4 ≤ FruitPlant.fruitCount (1/2) ∧
    FruitPlant.fruitCount (1/2) ≤ 6 ∧ 5 ≤ SmallPlant.clusterSize (1/2) ∧
    SmallPlant.clusterSize (1/2) ≤ 8 := by
  obtain ⟨⟨a, b⟩, ⟨c, d⟩, -, -⟩ := subpart_counts_in_range (1/2) (by norm_num) (by norm_num)
  exact ⟨by norm_num, by norm_num, a, b, c, d⟩
